/-
A verification development for the LIGO Light Weight XML element module
(glue/ligolw/ligolw.py): a shallow embedding of the element tree data
model, the mutation API, the SAX content handler, and the serializer,
together with theorems settling the specification claims.

Modelling conventions:
  * Python exceptions become explicit error values (PyError).  An
    operation that in Python mutates state and may raise is embedded as
    a function returning both the post-call state and an optional error,
    because in Python the mutations performed before the raise persist.
  * The sax.xmlreader.AttributesImpl dictionary is embedded as an
    association list (AttrMap) with first-match lookup; writing a key
    that is absent appends it.
-/
import Mathlib

set_option autoImplicit false

/-- The fixed enumeration of element tag kinds defined in the module
(one per Element subclass, plus the Document root). -/
inductive Tag where
  | LIGO_LW
  | Comment
  | Param
  | Table
  | Column
  | Array
  | Dim
  | Stream
  | IGWDFrame
  | Detector
  | AdcData
  | AdcInterval
  | Time
  | Document
deriving DecidableEq, Repr

/-- The tagName class attribute of each Element subclass. -/
def tagName : Tag → String
  | .LIGO_LW => "LIGO_LW"
  | .Comment => "Comment"
  | .Param => "Param"
  | .Table => "Table"
  | .Column => "Column"
  | .Array => "Array"
  | .Dim => "Dim"
  | .Stream => "Stream"
  | .IGWDFrame => "IGWDFrame"
  | .Detector => "Detector"
  | .AdcData => "AdcData"
  | .AdcInterval => "AdcInterval"
  | .Time => "Time"
  | .Document => "Document"

/-- Attribute mappings (sax.xmlreader.AttributesImpl), embedded as
association lists with first-match lookup. -/
abbrev AttrMap := List (String × String)

/-- Dictionary lookup on an attribute mapping. -/
def lookupAttr : AttrMap → String → Option String
  | [], _ => none
  | (k, v) :: rest, key => if k = key then some v else lookupAttr rest key

/-- attrs.has_key(k). -/
def hasKey (a : AttrMap) (k : String) : Bool := (lookupAttr a k).isSome

/-- The kinds of Python exception the embedded code can raise.
ElementError is the module's own exception class; the others are
exceptions the Python runtime itself raises on the slips present in the
source (an undefined name, a call with the wrong number of arguments, a
missing method attribute). -/
inductive PyError where
  | elementError (msg : String)
  | typeError (msg : String)
  | nameError (msg : String)
  | attributeError (msg : String)
deriving DecidableEq, Repr

/-- The validattributes class attribute of each Element subclass
(classes that do not set it inherit the empty list from Element). -/
def validattributes : Tag → List String
  | .LIGO_LW => []
  | .Comment => []
  | .Param => ["Name", "Type", "Start", "Scale", "Unit", "DataUnit"]
  | .Table => ["Name", "Type"]
  | .Column => ["Name", "Type", "Unit"]
  | .Array => ["Name", "Type", "Unit"]
  | .Dim => ["Name", "Unit", "Start", "Scale"]
  | .Stream => ["Name", "Type", "Delimiter", "Encoding", "Content"]
  | .IGWDFrame => ["Name"]
  | .Detector => ["Name"]
  | .AdcData => ["Name"]
  | .AdcInterval => ["Name", "StartTime", "DeltaT"]
  | .Time => ["Name", "Type"]
  | .Document => []

/-- The validchildren class attribute of each Element subclass
(classes that do not set it inherit the empty list from Element). -/
def validchildren : Tag → List String
  | .LIGO_LW => ["LIGO_LW", "Comment", "Param", "Table", "Array", "Stream",
      "IGWDFrame", "AdcData", "AdcInterval", "Time", "Detector"]
  | .Comment => []
  | .Param => ["Comment"]
  | .Table => ["Comment", "Column", "Stream"]
  | .Column => []
  | .Array => ["Dim", "Stream"]
  | .Dim => []
  | .Stream => []
  | .IGWDFrame => ["Comment", "Param", "Time", "Detector", "AdcData",
      "LIGO_LW", "Stream", "Array", "IGWDFrame"]
  | .Detector => ["Comment", "Param", "LIGO_LW"]
  | .AdcData => ["AdcData", "Comment", "Param", "Time", "LIGO_LW", "Array"]
  | .AdcInterval => ["AdcData", "Comment", "Time"]
  | .Time => []
  | .Document => ["LIGO_LW"]

/-- An element node: tag kind, attribute mapping, ordered children and
optional text payload (pcdata).  The parentNode back reference is not a
field of the tree value; operations that read or write it report its
value explicitly. -/
inductive Elem where
  | mk (tag : Tag) (attrs : AttrMap) (childNodes : List Elem)
      (pcdata : Option String)
deriving Repr

def Elem.tag : Elem → Tag
  | .mk t _ _ _ => t

def Elem.attrs : Elem → AttrMap
  | .mk _ a _ _ => a

def Elem.childNodes : Elem → List Elem
  | .mk _ _ c _ => c

def Elem.pcdata : Elem → Option String
  | .mk _ _ _ p => p

/-- The key-validation loop of Element.__init__: for each key of the
attribute mapping, raise ElementError if it is not a validattribute of
the tag. -/
def checkAttrKeys (t : Tag) : AttrMap → Option PyError
  | [] => none
  | (k, _) :: rest =>
    if k ∈ validattributes t then checkAttrKeys t rest
    else some (.elementError (tagName t ++ " does not have attribute " ++ k))

/-- Element.__init__: validate the attribute keys, then build the node
with no children and no pcdata. -/
def elementInit (t : Tag) (attrs : AttrMap) : Except PyError Elem :=
  match checkAttrKeys t attrs with
  | some e => .error e
  | none => .ok (.mk t attrs [] none)

/-- The in-place default filling performed by Stream.__init__ on the
caller-supplied mapping: add Type = Local when the Type key is absent,
then add Delimiter = "," when the Delimiter key is absent. -/
def streamNormalize (attrs : AttrMap) : AttrMap :=
  let a1 := if hasKey attrs "Type" then attrs else attrs ++ [("Type", "Local")]
  if hasKey a1 "Delimiter" then a1 else a1 ++ [("Delimiter", ",")]

/-- Stream.__init__.  Returns the caller-supplied attribute mapping as
it stands after the call (the method mutates it in place before any
check can fail) together with the construction outcome.  On success the
constructed node holds the same (normalized) mapping. -/
def streamInit (attrs : AttrMap) : AttrMap × Except PyError Elem :=
  let a := streamNormalize attrs
  (a, match lookupAttr a "Type" with
      | some tv =>
        if tv = "Remote" ∨ tv = "Local" then elementInit .Stream a
        else .error (.elementError
          ("invalid value " ++ tv ++ " for Stream attribute Type"))
      | none => elementInit .Stream a)

/-- The in-place default filling performed by Time.__init__: add
Type = ISO-8601 when the Type key is absent. -/
def timeNormalize (attrs : AttrMap) : AttrMap :=
  if hasKey attrs "Type" then attrs else attrs ++ [("Type", "ISO-8601")]

/-- Time.__init__, with the same state-reporting convention as
streamInit. -/
def timeInit (attrs : AttrMap) : AttrMap × Except PyError Elem :=
  let a := timeNormalize attrs
  (a, match lookupAttr a "Type" with
      | some tv =>
        if tv = "GPS" ∨ tv = "Unix" ∨ tv = "ISO-8601" then elementInit .Time a
        else .error (.elementError
          ("invalid value " ++ tv ++ " for Time attribute Type"))
      | none => elementInit .Time a)

/-- Constructing an element of a given tag kind: Stream and Time have
overriding initializers, every other kind uses Element.__init__
directly (which does not touch the caller's mapping).  The first
component is the caller-supplied attribute mapping after the call. -/
def construct (t : Tag) (attrs : AttrMap) : AttrMap × Except PyError Elem :=
  match t with
  | .Stream => streamInit attrs
  | .Time => timeInit attrs
  | _ => (attrs, elementInit t attrs)

/-- The scanning loop of Table._verifyChildren, with the three counters
ncomment, ncolumn, nstream.  Tag names are compared as strings exactly
as the source compares child.tagName with Comment.tagName and
Column.tagName; any other tag name falls into the stream-counting
branch. -/
def verifyTableLoop : List Elem → Nat → Nat → Nat → Option PyError
  | [], _, _, _ => none
  | child :: rest, ncomment, ncolumn, nstream =>
    if tagName child.tag = "Comment" then
      if 0 < ncomment then
        some (.elementError "only one Comment allowed in Table")
      else if 0 < ncolumn ∨ 0 < nstream then
        some (.elementError
          "Comment must come before Column(s) and Stream in Table")
      else verifyTableLoop rest (ncomment + 1) ncolumn nstream
    else if tagName child.tag = "Column" then
      if 0 < nstream then
        some (.elementError "Column(s) must come before Stream in Table")
      else verifyTableLoop rest ncomment (ncolumn + 1) nstream
    else
      if 0 < nstream then
        some (.elementError "only one Stream allowed in Table")
      else verifyTableLoop rest ncomment ncolumn (nstream + 1)

/-- Table._verifyChildren scans the whole child list with all counters
starting at zero (the index argument is ignored by the source). -/
def verifyTable (children : List Elem) : Option PyError :=
  verifyTableLoop children 0 0 0

/-- Dispatch of the _verifyChildren method by element kind.  Table has
the scanning checker above.  Array overrides _verifyChildren with the
signature (self, child, i), but every call site passes a single
argument, so in Python the invocation itself raises TypeError before
the method body can run.  All other kinds inherit the base Element
no-op.  The index argument is unused because no reachable checker reads
it. -/
def verifyChildren (t : Tag) (children : List Elem) (_i : Nat) : Option PyError :=
  match t with
  | .Table => verifyTable children
  | .Array => some (.typeError
      "_verifyChildren() takes exactly 3 arguments (2 given)")
  | _ => none

/-- The outcome of Element.appendChild: the parent as it stands after
the call (the child is appended before the checker runs, and a checker
failure does not undo the append), whether the child's parentNode field
points at the parent afterwards (the source always sets it and never
clears it on failure), and the error raised by the checker, if any. -/
structure AppendResult where
  parent : Elem
  childParentIsParent : Bool
  error : Option PyError
deriving Repr

/-- Element.appendChild: append the child, set its parentNode, then run
_verifyChildren on the new last index. -/
def appendChild (p c : Elem) : AppendResult :=
  let newChildren := p.childNodes ++ [c]
  { parent := .mk p.tag p.attrs newChildren p.pcdata
    childParentIsParent := true
    error := verifyChildren p.tag newChildren (newChildren.length - 1) }

/-- Element.replaceChild (source lines 147-158).  The first statement
of the body reads the name refchild, which is not bound anywhere in the
method (its parameters are newchild and oldchild; refchild is the
parameter name of insertBefore), so in Python every call raises
NameError before any mutation takes place.  The parent is returned
unchanged alongside the error. -/
def replaceChild (p _newchild _oldchild : Elem) : Elem × Except PyError Elem :=
  (p, .error (.nameError "global name refchild is not defined"))

/-- Element.appendData: append to pcdata when it is truthy (a non-None,
non-empty string), otherwise overwrite it with the content. -/
def Elem.appendData : Elem → String → Elem
  | .mk t a c p, content =>
    match p with
    | some s =>
      if s = "" then .mk t a c (some content)
      else .mk t a c (some (s ++ content))
    | none => .mk t a c (some content)

/-- A sequence of appendChild calls, stopping at (and surfacing) the
first checker error. -/
def appendSeq : Elem → List Elem → Except PyError Elem
  | p, [] => .ok p
  | p, c :: cs =>
    match (appendChild p c).error with
    | some e => .error e
    | none => appendSeq (appendChild p c).parent cs

/-- One frame of the open-element context maintained by the content
handler: the data of an enclosing element other than the children of
the currently open element (which live in the cursor). -/
structure OpenFrame where
  tag : Tag
  attrs : AttrMap
  children : List Elem
  pcdata : Option String
deriving Repr

/-- The LIGOLWContentHandler state: the chain of open enclosing
elements (innermost first) and the current-node cursor.  The cursor is
none exactly when self.current has been moved to the Document root's
parentNode, which is Python None. -/
structure Handler where
  stack : List OpenFrame
  current : Option Elem
deriving Repr

/-- The events a SAX parser feeds the content handler. -/
inductive SaxEvent where
  | start (name : String) (attrs : AttrMap)
  | endEv (name : String)
  | chars (content : String)
deriving Repr

/-- The tag-name dispatch chain shared by startElement and endElement:
the thirteen recognized element names (Document is not among them). -/
def dispatchTag (name : String) : Option Tag :=
  if name = "AdcData" then some .AdcData
  else if name = "AdcInterval" then some .AdcInterval
  else if name = "Array" then some .Array
  else if name = "Column" then some .Column
  else if name = "Comment" then some .Comment
  else if name = "Detector" then some .Detector
  else if name = "Dim" then some .Dim
  else if name = "IGWDFrame" then some .IGWDFrame
  else if name = "LIGO_LW" then some .LIGO_LW
  else if name = "Param" then some .Param
  else if name = "Stream" then some .Stream
  else if name = "Table" then some .Table
  else if name = "Time" then some .Time
  else none

/-- LIGOLWContentHandler.startElement: resolve the name (ElementError
for an unknown tag), construct the child through the kind's
initializer, append it to the current node (surfacing any checker
error) and move the cursor to the child. -/
def startElement (h : Handler) (name : String) (attrs : AttrMap) :
    Except PyError Handler :=
  match dispatchTag name with
  | none => .error (.elementError ("unknown element tag " ++ name))
  | some t =>
    match (construct t attrs).2 with
    | .error e => .error e
    | .ok child =>
      match h.current with
      | none => .error (.attributeError
          "NoneType object has no attribute appendChild")
      | some cur =>
        match (appendChild cur child).error with
        | some e => .error e
        | none =>
          .ok { stack := ⟨cur.tag, cur.attrs, cur.childNodes, cur.pcdata⟩ :: h.stack
                current := some child }

/-- LIGOLWContentHandler.endElement: an unknown name raises
ElementError; the name Param raises AttributeError, because the source
calls self.endParam() while the class defines endParams (source lines
519 and 592); every other recognized name reaches a no-op end method.
Afterwards the cursor moves to the current node's parentNode (Python
None once the Document root is closed). -/
def endElement (h : Handler) (name : String) : Except PyError Handler :=
  match dispatchTag name with
  | none => .error (.elementError ("unknown element tag " ++ name))
  | some _ =>
    if name = "Param" then
      .error (.attributeError
        "LIGOLWContentHandler instance has no attribute endParam")
    else
      match h.current with
      | none => .error (.attributeError
          "NoneType object has no attribute parentNode")
      | some cur =>
        match h.stack with
        | [] => .ok { stack := [], current := none }
        | f :: rest =>
          .ok { stack := rest
                current := some (.mk f.tag f.attrs (f.children ++ [cur]) f.pcdata) }

/-- LIGOLWContentHandler.characters: append the content to the current
node's pcdata when its tag is Comment or Stream, discard it
otherwise. -/
def charactersEv (h : Handler) (content : String) : Except PyError Handler :=
  match h.current with
  | none => .error (.attributeError "NoneType object has no attribute tagName")
  | some cur =>
    if tagName cur.tag = "Comment" ∨ tagName cur.tag = "Stream" then
      .ok { h with current := some (cur.appendData content) }
    else .ok h

/-- One SAX event step. -/
def handleEvent (h : Handler) : SaxEvent → Except PyError Handler
  | .start n a => startElement h n a
  | .endEv n => endElement h n
  | .chars s => charactersEv h s

/-- Feed a list of events in order, stopping at the first error. -/
def runEvents : Handler → List SaxEvent → Except PyError Handler
  | h, [] => .ok h
  | h, ev :: rest =>
    match handleEvent h ev with
    | .error e => .error e
    | .ok h2 => runEvents h2 rest

/-- The handler as initialized on a fresh Document root. -/
def initHandler : Handler :=
  { stack := [], current := some (.mk .Document [] [] none) }

/-- The event list of the claimed builder scenario: start LIGO_LW,
start Comment, characters hi, end Comment, end LIGO_LW. -/
def c3Events : List SaxEvent :=
  [.start "LIGO_LW" [], .start "Comment" [], .chars "hi",
   .endEv "Comment", .endEv "LIGO_LW"]

/-- An event list that opens a LIGO_LW, opens a Param inside it with a
permitted attribute, and closes the Param: a well-nested sequence of
recognized tag names. -/
def c8Events : List SaxEvent :=
  [.start "LIGO_LW" [], .start "Param" [("Name", "p")], .endEv "Param"]

/-- The attribute-formatting loop shared by the start_tag methods. -/
def formatAttrs (a : AttrMap) : String :=
  a.foldl (fun s kv => s ++ " " ++ kv.1 ++ "=\"" ++ kv.2 ++ "\"") ""

/-- Element.start_tag, with the Column override closing the tag with a
slash. -/
def startTagStr (t : Tag) (attrs : AttrMap) (indent : String) : String :=
  if t = .Column then indent ++ "<" ++ tagName t ++ formatAttrs attrs ++ "/>"
  else indent ++ "<" ++ tagName t ++ formatAttrs attrs ++ ">"

/-- Element.end_tag, with the Column override returning the empty
string. -/
def endTagStr (t : Tag) (indent : String) : String :=
  if t = .Column then "" else indent ++ "</" ++ tagName t ++ ">"

/-- A single-quote character, used by the document header. -/
def squoteChr : String := ⟨[Char.ofNat 39]⟩

/-- The first line of the Header constant. -/
def headerLine1 : String :=
  "<?xml version=" ++ squoteChr ++ "1.0" ++ squoteChr ++ " encoding=" ++ squoteChr ++ "utf-8" ++ squoteChr ++ " ?>"

/-- The second line of the Header constant. -/
def headerLine2 : String :=
  "<!DOCTYPE LIGO_LW SYSTEM \"http://ldas-sw.ligo.caltech.edu/doc/ligolwAPI/html/ligolw_dtd.txt\">"

mutual

/-- The write methods, producing the emitted text (each print call
appends a newline).  Comment writes a single line holding start tag,
truthy pcdata and end tag, and ignores children; Column writes only its
self-closing start tag; Document writes the Header and then its
children with no indent and no tags of its own; every other kind writes
its start tag, its children (checking each against validchildren, with
one extra Indent unit), its truthy pcdata, and its end tag. -/
def writeElem : Elem → String → Except PyError String
  | .mk t a cs p, indent =>
    if t = .Comment then
      match p with
      | some s =>
        if s = "" then .ok (startTagStr t a indent ++ endTagStr t "" ++ "\n")
        else .ok (startTagStr t a indent ++ s ++ endTagStr t "" ++ "\n")
      | none => .ok (startTagStr t a indent ++ endTagStr t "" ++ "\n")
    else if t = .Column then
      .ok (startTagStr t a indent ++ "\n")
    else if t = .Document then
      match writeList t cs "" with
      | .error e => .error e
      | .ok body => .ok (headerLine1 ++ "\n" ++ headerLine2 ++ "\n" ++ body)
    else
      match writeList t cs (indent ++ "\t") with
      | .error e => .error e
      | .ok body =>
        let pcLine := match p with
          | some s => if s = "" then "" else s ++ "\n"
          | none => ""
        .ok (startTagStr t a indent ++ "\n" ++ body ++ pcLine
          ++ endTagStr t indent ++ "\n")

/-- The child-writing loop of the write methods: each child is checked
against the parent's validchildren (ElementError on a mismatch) and
then written recursively. -/
def writeList : Tag → List Elem → String → Except PyError String
  | _, [], _ => .ok ""
  | t, c :: rest, indent =>
    if tagName c.tag ∈ validchildren t then
      match writeElem c indent with
      | .error e => .error e
      | .ok s =>
        match writeList t rest indent with
        | .error e => .error e
        | .ok s2 => .ok (s ++ s2)
    else .error (.elementError
      ("invalid child " ++ tagName c.tag ++ " for " ++ tagName t))

end

/-- Sample nodes used by concrete instances in the theorems. -/
def commentE : Elem := .mk .Comment [] [] none

def columnE : Elem := .mk .Column [] [] none

def streamE : Elem := .mk .Stream [] [] none

def paramE : Elem := .mk .Param [] [] none

def dimE : Elem := .mk .Dim [] [] none

/-- A child is counted as a Comment by the Table checker when its tag
name is the string Comment. -/
def isCommentE (c : Elem) : Bool := decide (tagName c.tag = "Comment")

/-- A child is counted as a Column by the Table checker when its tag
name is the string Column. -/
def isColumnE (c : Elem) : Bool := decide (tagName c.tag = "Column")

/-- A child falls into the stream-counting branch of the Table checker
when its tag name is neither Comment nor Column. -/
def isStreamishE (c : Elem) : Bool := !isCommentE c && !isColumnE c

/-- At most one Comment, and any Comment present is at index 0:
equivalently, no element after the head is a Comment. -/
def commentOnlyAtHead : List Elem → Bool
  | [] => true
  | _ :: r => r.all fun c => !isCommentE c

/-- Every Column entry precedes every Stream entry: no Column occurs
anywhere after a Stream. -/
def colBeforeStreamB : List Tag → Bool
  | [] => true
  | t :: r =>
    if t = Tag.Stream then
      (r.all fun u => decide (u ≠ Tag.Column)) && colBeforeStreamB r
    else colBeforeStreamB r

/-- The number of children whose tag kind is Stream. -/
def streamCountE (cs : List Elem) : Nat :=
  cs.countP fun c => decide (c.tag = Tag.Stream)

/-- The Table child-ordering invariant stated by the specification: at
most one Comment and any Comment present is at index 0, every Column
entry precedes every Stream entry, and at most one Stream. -/
def tableOrderedB (cs : List Elem) : Bool :=
  commentOnlyAtHead cs && colBeforeStreamB (cs.map Elem.tag)
    && decide (streamCountE cs ≤ 1)

theorem tag_of_tagName_comment (t : Tag) (h : tagName t = "Comment") :
    t = Tag.Comment := by
  cases t <;> first | rfl | (exact absurd h (by decide))

theorem tag_of_tagName_column (t : Tag) (h : tagName t = "Column") :
    t = Tag.Column := by
  cases t <;> first | rfl | (exact absurd h (by decide))

theorem isStreamishE_of_stream (c : Elem) (h : c.tag = Tag.Stream) :
    isStreamishE c = true := by
  simp [isStreamishE, isCommentE, isColumnE, h, tagName]

theorem countP_le_of_imp {α : Type} (p q : α → Bool) (l : List α)
    (h : ∀ a, p a = true → q a = true) : l.countP p ≤ l.countP q := by
  induction l with
  | nil => simp
  | cons a r ih =>
    rw [List.countP_cons, List.countP_cons]
    by_cases hp : p a = true
    · simp [hp, h a hp]; omega
    · simp [Bool.not_eq_true] at hp
      simp [hp]
      split <;> omega

/-- What a successful run of the Table checker loop guarantees, for
arbitrary incoming counter values: a positive counter means no further
Comment is accepted, at most one child (counting the incoming nstream)
falls into the stream branch, no Column follows a Stream, a positive
incoming nstream forces the remaining list to be empty, and no Comment
occurs after the head. -/
theorem verifyTableLoop_props (l : List Elem) :
    ∀ nc ncol ns, verifyTableLoop l nc ncol ns = none →
    (0 < nc + ncol + ns → l.countP isCommentE = 0) ∧
    (ns ≤ 1 → l.countP isStreamishE + ns ≤ 1) ∧
    colBeforeStreamB (l.map Elem.tag) = true ∧
    (0 < ns → l = []) ∧
    commentOnlyAtHead l = true := by
  induction l with
  | nil =>
    intro nc ncol ns _
    refine ⟨fun _ => rfl, fun h1 => by simpa using h1, rfl, fun _ => rfl, rfl⟩
  | cons c r ih =>
    intro nc ncol ns h
    rw [verifyTableLoop] at h
    by_cases hcm : tagName c.tag = "Comment"
    · rw [if_pos hcm] at h
      by_cases h1 : 0 < nc
      · rw [if_pos h1] at h; simp at h
      · rw [if_neg h1] at h
        by_cases h2 : 0 < ncol ∨ 0 < ns
        · rw [if_pos h2] at h; simp at h
        · rw [if_neg h2] at h
          have hncol : ¬ 0 < ncol := fun hx => h2 (Or.inl hx)
          have hns : ¬ 0 < ns := fun hx => h2 (Or.inr hx)
          obtain ⟨i1, i2, i3, _, _⟩ := ih (nc + 1) ncol ns h
          have hrc : r.countP isCommentE = 0 := i1 (by omega)
          refine ⟨?_, ?_, ?_, ?_, ?_⟩
          · intro hsum; exact absurd hsum (by omega)
          · intro hns1
            rw [List.countP_cons]
            have hc : isStreamishE c = false := by
              simp [isStreamishE, isCommentE, hcm]
            have := i2 hns1
            simp [hc]; omega
          · have hct : c.tag = Tag.Comment := tag_of_tagName_comment _ hcm
            simpa [colBeforeStreamB, hct] using i3
          · intro hx; exact absurd hx hns
          · simpa [commentOnlyAtHead, List.all_eq_true,
              List.countP_eq_zero] using hrc
    · rw [if_neg hcm] at h
      by_cases hcl : tagName c.tag = "Column"
      · rw [if_pos hcl] at h
        by_cases h1 : 0 < ns
        · rw [if_pos h1] at h; simp at h
        · rw [if_neg h1] at h
          obtain ⟨i1, i2, i3, _, _⟩ := ih nc (ncol + 1) ns h
          have hrc : r.countP isCommentE = 0 := i1 (by omega)
          refine ⟨?_, ?_, ?_, ?_, ?_⟩
          · intro _
            rw [List.countP_cons]
            have hc : isCommentE c = false := by simp [isCommentE, hcm]
            simp [hc, hrc]
          · intro hns1
            rw [List.countP_cons]
            have hc : isStreamishE c = false := by
              simp [isStreamishE, isColumnE, hcl]
            have := i2 hns1
            simp [hc]; omega
          · have hct : c.tag = Tag.Column := tag_of_tagName_column _ hcl
            simpa [colBeforeStreamB, hct] using i3
          · intro hx; exact absurd hx h1
          · simpa [commentOnlyAtHead, List.all_eq_true,
              List.countP_eq_zero] using hrc
      · rw [if_neg hcl] at h
        by_cases h1 : 0 < ns
        · rw [if_pos h1] at h; simp at h
        · rw [if_neg h1] at h
          obtain ⟨_, _, _, i4, _⟩ := ih nc ncol (ns + 1) h
          have hr : r = [] := i4 (by omega)
          subst hr
          refine ⟨?_, ?_, ?_, ?_, ?_⟩
          · intro _
            rw [List.countP_cons]
            have hc : isCommentE c = false := by simp [isCommentE, hcm]
            simp [hc]
          · intro _
            have hns0 : ns = 0 := by omega
            have hc : isStreamishE c = true := by
              simp [isStreamishE, isCommentE, isColumnE, hcm, hcl]
            rw [List.countP_cons]
            simp [hc, hns0]
          · by_cases hst : c.tag = Tag.Stream <;>
              simp [colBeforeStreamB, hst]
          · intro hx; exact absurd hx h1
          · rfl

/-- A successful run of Table._verifyChildren implies the Table
ordering invariant. -/
theorem verifyTable_ordered (cs : List Elem) (h : verifyTable cs = none) :
    tableOrderedB cs = true := by
  obtain ⟨_, i2, i3, _, i5⟩ := verifyTableLoop_props cs 0 0 0 h
  have hstream : streamCountE cs ≤ 1 := by
    have hle : cs.countP (fun c => decide (c.tag = Tag.Stream)) ≤
        cs.countP isStreamishE := by
      refine countP_le_of_imp _ _ cs fun c hc => ?_
      exact isStreamishE_of_stream c (by simpa using hc)
    have := i2 (by omega)
    simp only [streamCountE]
    omega
  simp [tableOrderedB, i3, i5, hstream]

/-- A successful appendSeq on a Table either performed no append at all
or ends in a state whose full child list passed the Table checker. -/
theorem appendSeq_table_ok (cs : List Elem) :
    ∀ (a : AttrMap) (pc : Option String) (init : List Elem) (t : Elem),
    appendSeq (.mk .Table a init pc) cs = .ok t →
    ∃ l, t = .mk .Table a l pc ∧ (verifyTable l = none ∨ l = init) := by
  induction cs with
  | nil =>
    intro a pc init t h
    simp only [appendSeq] at h
    exact ⟨init, by simpa using h.symm, Or.inr rfl⟩
  | cons c rest ih =>
    intro a pc init t h
    simp only [appendSeq, appendChild, verifyChildren, Elem.tag, Elem.attrs,
      Elem.childNodes, Elem.pcdata] at h
    cases hv : verifyTable (init ++ [c]) with
    | some e => rw [hv] at h; simp at h
    | none =>
      rw [hv] at h
      obtain ⟨l, hl, hor⟩ := ih a pc (init ++ [c]) t h
      refine ⟨l, hl, Or.inl ?_⟩
      cases hor with
      | inl h2 => exact h2
      | inr h2 => rw [h2]; exact hv

/-- C1 counterexample: appendChild does not consult validchildren (a
Param, which is not a permitted Table child, is appended to a Table
without error), and when the ordering checker rejects a Column appended
after a Stream the append is not rolled back: the child sequence has
changed and the child's parent link is still set. -/
theorem c1_counterexample :
    tagName paramE.tag ∉ validchildren Tag.Table ∧
    (appendChild (.mk .Table [] [] none) paramE).error = none ∧
    (appendChild (.mk .Table [] [streamE] none) columnE).error =
      some (.elementError "Column(s) must come before Stream in Table") ∧
    (appendChild (.mk .Table [] [streamE] none) columnE).parent.childNodes.map
      Elem.tag = [Tag.Stream, Tag.Column] ∧
    (appendChild (.mk .Table [] [streamE] none) columnE).childParentIsParent
      = true :=
  ⟨by decide, rfl, rfl, rfl, rfl⟩

/-- C1 (amended): appendChild never consults the permitted-children
set; it always appends the child and sets its parent link, and when the
ordering checker then fails, the ElementError is surfaced but the
append is not rolled back - the parent's child sequence ends with the
new child and the child's parent link remains set. -/
theorem c1_append_failure_keeps_child (p c : Elem) (e : PyError)
    (h : verifyChildren p.tag (p.childNodes ++ [c])
      ((p.childNodes ++ [c]).length - 1) = some e) :
    (appendChild p c).error = some e ∧
    (appendChild p c).parent.childNodes = p.childNodes ++ [c] ∧
    (appendChild p c).childParentIsParent = true := by
  exact ⟨h, rfl, rfl⟩

/-- Witness for C1: the amended claim applied to a Table holding a
Stream and an appended Column. -/
theorem c1_witness :
    (appendChild (.mk .Table [] [streamE] none) columnE).error =
      some (.elementError "Column(s) must come before Stream in Table") ∧
    (appendChild (.mk .Table [] [streamE] none) columnE).parent.childNodes =
      Elem.childNodes (.mk .Table [] [streamE] none) ++ [columnE] ∧
    (appendChild (.mk .Table [] [streamE] none) columnE).childParentIsParent
      = true :=
  c1_append_failure_keeps_child (.mk .Table [] [streamE] none) columnE
    (.elementError "Column(s) must come before Stream in Table") rfl

/-- C2: any sequence of successful appendChild calls starting from a
fresh Table leaves a child sequence satisfying the Table ordering
invariant - at most one Comment and any Comment at index 0, every
Column before every Stream, at most one Stream. -/
theorem c2_table_append_ordering (a : AttrMap) (pc : Option String)
    (cs : List Elem) (t : Elem)
    (h : appendSeq (.mk .Table a [] pc) cs = .ok t) :
    t.tag = .Table ∧ tableOrderedB t.childNodes = true := by
  obtain ⟨l, rfl, hor⟩ := appendSeq_table_ok cs a pc [] t h
  refine ⟨rfl, ?_⟩
  cases hor with
  | inl hv => exact verifyTable_ordered l hv
  | inr he => rw [he]; rfl

/-- Witness for C2: the successful run appending Comment, Column and
Stream to a fresh Table. -/
theorem c2_witness :
    Elem.tag (.mk .Table [] [commentE, columnE, streamE] none) = .Table ∧
    tableOrderedB
      (Elem.childNodes (.mk .Table [] [commentE, columnE, streamE] none))
      = true :=
  c2_table_append_ordering [] none [commentE, columnE, streamE] _ rfl

/-- C3: feeding start(LIGO_LW), start(Comment), characters(hi),
end(Comment), end(LIGO_LW) to a handler on a fresh Document completes
without error; the resulting Comment node's pcdata is hi and the cursor
is back at the Document root (the open-element stack is empty and the
current node is the Document holding the finished subtree). -/
theorem c3_builder_comment_scenario :
    runEvents initHandler c3Events =
      .ok { stack := []
            current := some (.mk .Document []
              [.mk .LIGO_LW [] [.mk .Comment [] [] (some "hi")] none] none) } :=
  rfl

/-- C4: appending any child to an Array raises TypeError, because
Array._verifyChildren is defined with an extra parameter and the
appendChild call site passes a single argument; the child nevertheless
stays appended, since the append happens before the checker call.
Evaluated here at the failing input of an empty Array and a Dim, an
append the claim says must succeed. -/
theorem c4_array_append_type_error :
    (appendChild (.mk .Array [] [] none) dimE).error =
      some (.typeError "_verifyChildren() takes exactly 3 arguments (2 given)") ∧
    (appendChild (.mk .Array [] [] none) dimE).parent.childNodes.map Elem.tag
      = [Tag.Dim] :=
  ⟨rfl, rfl⟩

/-- C5: every replaceChild call raises NameError and leaves the parent
unchanged, because the body reads the undefined name refchild; here
evaluated at a parent that does contain the old child, a call the claim
says must swap the new child in. -/
theorem c5_replace_child_name_error :
    replaceChild (.mk .Table [] [commentE] none) columnE commentE =
      (.mk .Table [] [commentE] none,
       .error (.nameError "global name refchild is not defined")) :=
  rfl

theorem lookupAttr_append (l1 l2 : AttrMap) (k : String) :
    lookupAttr (l1 ++ l2) k =
      match lookupAttr l1 k with
      | some v => some v
      | none => lookupAttr l2 k := by
  induction l1 with
  | nil => simp [lookupAttr]
  | cons kv rest ih =>
    obtain ⟨k0, v0⟩ := kv
    by_cases hk : k0 = k
    · simp [lookupAttr, hk]
    · simp [lookupAttr, hk, ih]

theorem lookupAttr_append_of_none (l1 l2 : AttrMap) (k : String)
    (h : lookupAttr l1 k = none) : lookupAttr (l1 ++ l2) k = lookupAttr l2 k := by
  rw [lookupAttr_append, h]

theorem lookupAttr_append_of_some (l1 l2 : AttrMap) (k v : String)
    (h : lookupAttr l1 k = some v) : lookupAttr (l1 ++ l2) k = some v := by
  rw [lookupAttr_append, h]

theorem lookupAttr_none_of_hasKey_false (a : AttrMap) (k : String)
    (h : ¬ hasKey a k = true) : lookupAttr a k = none := by
  cases hv : lookupAttr a k with
  | none => rfl
  | some v => exact absurd (by simp [hasKey, hv]) h

theorem lookupAttr_some_of_hasKey (a : AttrMap) (k : String)
    (h : hasKey a k = true) : ∃ v, lookupAttr a k = some v := by
  cases hv : lookupAttr a k with
  | none => simp [hasKey, hv] at h
  | some v => exact ⟨v, rfl⟩

/-- streamNormalize only ever appends entries to the mapping. -/
theorem streamNormalize_ext (attrs : AttrMap) :
    ∃ ext, streamNormalize attrs = attrs ++ ext := by
  by_cases h1 : hasKey attrs "Type" = true
  · by_cases h2 : hasKey attrs "Delimiter" = true
    · exact ⟨[], by simp [streamNormalize, h1, h2]⟩
    · exact ⟨[("Delimiter", ",")], by simp [streamNormalize, h1, h2]⟩
  · by_cases h2 : hasKey (attrs ++ [("Type", "Local")]) "Delimiter" = true
    · exact ⟨[("Type", "Local")], by simp [streamNormalize, h1, h2]⟩
    · exact ⟨[("Type", "Local"), ("Delimiter", ",")],
        by simp [streamNormalize, h1, h2]⟩

/-- timeNormalize only ever appends entries to the mapping. -/
theorem timeNormalize_ext (attrs : AttrMap) :
    ∃ ext, timeNormalize attrs = attrs ++ ext := by
  by_cases h1 : hasKey attrs "Type" = true
  · exact ⟨[], by simp [timeNormalize, h1]⟩
  · exact ⟨[("Type", "ISO-8601")], by simp [timeNormalize, h1]⟩

theorem mem_streamNormalize (attrs : AttrMap) (kv : String × String)
    (h : kv ∈ attrs) : kv ∈ streamNormalize attrs := by
  obtain ⟨ext, he⟩ := streamNormalize_ext attrs
  rw [he]
  exact List.mem_append_left _ h

theorem mem_timeNormalize (attrs : AttrMap) (kv : String × String)
    (h : kv ∈ attrs) : kv ∈ timeNormalize attrs := by
  obtain ⟨ext, he⟩ := timeNormalize_ext attrs
  rw [he]
  exact List.mem_append_left _ h

/-- The Type entry of a stream-normalized mapping: the original value
when the key was present, the default Local when it was absent. -/
theorem streamNormalize_lookup_type (attrs : AttrMap) :
    ∃ v, lookupAttr (streamNormalize attrs) "Type" = some v ∧
      (lookupAttr attrs "Type" = some v ∨
        (lookupAttr attrs "Type" = none ∧ v = "Local")) := by
  by_cases h1 : hasKey attrs "Type" = true
  · obtain ⟨v, hv⟩ := lookupAttr_some_of_hasKey attrs "Type" h1
    refine ⟨v, ?_, Or.inl hv⟩
    by_cases h2 : hasKey attrs "Delimiter" = true
    · simpa [streamNormalize, h1, h2] using hv
    · rw [show streamNormalize attrs = attrs ++ [("Delimiter", ",")] from
        by simp [streamNormalize, h1, h2]]
      exact lookupAttr_append_of_some _ _ _ _ hv
  · have hT : lookupAttr attrs "Type" = none :=
      lookupAttr_none_of_hasKey_false attrs "Type" h1
    refine ⟨"Local", ?_, Or.inr ⟨hT, rfl⟩⟩
    by_cases h2 : hasKey (attrs ++ [("Type", "Local")]) "Delimiter" = true
    · rw [show streamNormalize attrs = attrs ++ [("Type", "Local")] from
        by simp [streamNormalize, h1, h2]]
      rw [lookupAttr_append_of_none _ _ _ hT]
      rfl
    · rw [show streamNormalize attrs = attrs ++ [("Type", "Local")]
          ++ [("Delimiter", ",")] from by simp [streamNormalize, h1, h2]]
      rw [List.append_assoc, lookupAttr_append_of_none _ _ _ hT]
      rfl

/-- The Delimiter entry of a stream-normalized mapping: the original
value when the key was present, the default comma when it was
absent. -/
theorem streamNormalize_lookup_delim (attrs : AttrMap) :
    ∃ v, lookupAttr (streamNormalize attrs) "Delimiter" = some v ∧
      (lookupAttr attrs "Delimiter" = some v ∨
        (lookupAttr attrs "Delimiter" = none ∧ v = ",")) := by
  by_cases h1 : hasKey attrs "Type" = true
  · by_cases h2 : hasKey attrs "Delimiter" = true
    · obtain ⟨v, hv⟩ := lookupAttr_some_of_hasKey attrs "Delimiter" h2
      exact ⟨v, by simpa [streamNormalize, h1, h2] using hv, Or.inl hv⟩
    · have hD : lookupAttr attrs "Delimiter" = none :=
        lookupAttr_none_of_hasKey_false attrs "Delimiter" h2
      refine ⟨",", ?_, Or.inr ⟨hD, rfl⟩⟩
      rw [show streamNormalize attrs = attrs ++ [("Delimiter", ",")] from
        by simp [streamNormalize, h1, h2]]
      rw [lookupAttr_append_of_none _ _ _ hD]
      rfl
  · have hDa1 : lookupAttr (attrs ++ [("Type", "Local")]) "Delimiter" =
        lookupAttr attrs "Delimiter" := by
      cases hD : lookupAttr attrs "Delimiter" with
      | some v => exact lookupAttr_append_of_some _ _ _ _ hD
      | none => rw [lookupAttr_append, hD]; decide
    by_cases h2 : hasKey (attrs ++ [("Type", "Local")]) "Delimiter" = true
    · have h2a : hasKey attrs "Delimiter" = true := by
        simpa [hasKey, hDa1] using h2
      obtain ⟨v, hv⟩ := lookupAttr_some_of_hasKey attrs "Delimiter" h2a
      refine ⟨v, ?_, Or.inl hv⟩
      rw [show streamNormalize attrs = attrs ++ [("Type", "Local")] from
        by simp [streamNormalize, h1, h2]]
      rw [hDa1]
      exact hv
    · have hD : lookupAttr attrs "Delimiter" = none := by
        have := lookupAttr_none_of_hasKey_false _ _ h2
        rwa [hDa1] at this
      refine ⟨",", ?_, Or.inr ⟨hD, rfl⟩⟩
      rw [show streamNormalize attrs = attrs ++ [("Type", "Local")]
          ++ [("Delimiter", ",")] from by simp [streamNormalize, h1, h2]]
      rw [lookupAttr_append_of_none _ _ _ (by rwa [hDa1])]
      rfl

/-- The Type entry of a time-normalized mapping. -/
theorem timeNormalize_lookup_type (attrs : AttrMap) :
    ∃ v, lookupAttr (timeNormalize attrs) "Type" = some v ∧
      (lookupAttr attrs "Type" = some v ∨
        (lookupAttr attrs "Type" = none ∧ v = "ISO-8601")) := by
  by_cases h1 : hasKey attrs "Type" = true
  · obtain ⟨v, hv⟩ := lookupAttr_some_of_hasKey attrs "Type" h1
    exact ⟨v, by simpa [timeNormalize, h1] using hv, Or.inl hv⟩
  · have hT : lookupAttr attrs "Type" = none :=
      lookupAttr_none_of_hasKey_false attrs "Type" h1
    refine ⟨"ISO-8601", ?_, Or.inr ⟨hT, rfl⟩⟩
    rw [show timeNormalize attrs = attrs ++ [("Type", "ISO-8601")] from
      by simp [timeNormalize, h1]]
    rw [lookupAttr_append_of_none _ _ _ hT]
    rfl

/-- The second components of the initializer results, with the let
bindings unfolded. -/
theorem streamInit_snd (attrs : AttrMap) :
    (streamInit attrs).2 =
      match lookupAttr (streamNormalize attrs) "Type" with
      | some tv =>
        if tv = "Remote" ∨ tv = "Local" then
          elementInit .Stream (streamNormalize attrs)
        else .error (.elementError
          ("invalid value " ++ tv ++ " for Stream attribute Type"))
      | none => elementInit .Stream (streamNormalize attrs) := rfl

theorem timeInit_snd (attrs : AttrMap) :
    (timeInit attrs).2 =
      match lookupAttr (timeNormalize attrs) "Type" with
      | some tv =>
        if tv = "GPS" ∨ tv = "Unix" ∨ tv = "ISO-8601" then
          elementInit .Time (timeNormalize attrs)
        else .error (.elementError
          ("invalid value " ++ tv ++ " for Time attribute Type"))
      | none => elementInit .Time (timeNormalize attrs) := rfl

theorem streamInit_snd_of_type (attrs : AttrMap) (v : String)
    (hv : lookupAttr (streamNormalize attrs) "Type" = some v) :
    (streamInit attrs).2 =
      if v = "Remote" ∨ v = "Local" then
        elementInit .Stream (streamNormalize attrs)
      else .error (.elementError
        ("invalid value " ++ v ++ " for Stream attribute Type")) := by
  rw [streamInit_snd, hv]

theorem timeInit_snd_of_type (attrs : AttrMap) (v : String)
    (hv : lookupAttr (timeNormalize attrs) "Type" = some v) :
    (timeInit attrs).2 =
      if v = "GPS" ∨ v = "Unix" ∨ v = "ISO-8601" then
        elementInit .Time (timeNormalize attrs)
      else .error (.elementError
        ("invalid value " ++ v ++ " for Time attribute Type")) := by
  rw [timeInit_snd, hv]

theorem construct_snd_of_other (t : Tag) (attrs : AttrMap)
    (hS : t ≠ .Stream) (hT : t ≠ .Time) :
    (construct t attrs).2 = elementInit t attrs := by
  cases t <;> first | rfl | exact absurd rfl hS | exact absurd rfl hT

theorem checkAttrKeys_none (t : Tag) (l : AttrMap)
    (h : ∀ kv ∈ l, kv.1 ∈ validattributes t) : checkAttrKeys t l = none := by
  induction l with
  | nil => rfl
  | cons kv rest ih =>
    obtain ⟨k, v⟩ := kv
    have hk : k ∈ validattributes t := h (k, v) (by simp)
    simp only [checkAttrKeys, hk, if_pos]
    exact ih fun kv2 hkv2 => h kv2 (by simp [hkv2])

theorem checkAttrKeys_some (t : Tag) (l : AttrMap) (kv : String × String)
    (hmem : kv ∈ l) (hbad : kv.1 ∉ validattributes t) :
    ∃ msg, checkAttrKeys t l = some (.elementError msg) := by
  induction l with
  | nil => simp at hmem
  | cons hd rest ih =>
    obtain ⟨k, v⟩ := hd
    by_cases hk : k ∈ validattributes t
    · rcases List.mem_cons.mp hmem with h1 | h1
      · rw [h1] at hbad
        exact absurd hk hbad
      · obtain ⟨msg, hmsg⟩ := ih h1
        exact ⟨msg, by simp only [checkAttrKeys, hk, if_pos]; exact hmsg⟩
    · exact ⟨tagName t ++ " does not have attribute " ++ k,
        by simp only [checkAttrKeys, hk, if_neg]; rfl⟩

/-- C6: a Stream constructed from a mapping with no Type key carries
Type = Local and, when the Delimiter key is also absent, Delimiter is a
comma; a Stream whose Type value is neither Local nor Remote fails to
construct. -/
theorem c6_stream_defaults (attrs : AttrMap) :
    (lookupAttr attrs "Type" = none →
      ∀ e, (streamInit attrs).2 = .ok e →
        lookupAttr e.attrs "Type" = some "Local" ∧
        (lookupAttr attrs "Delimiter" = none →
          lookupAttr e.attrs "Delimiter" = some ",")) ∧
    (∀ tv, lookupAttr attrs "Type" = some tv → tv ≠ "Remote" → tv ≠ "Local" →
      ∃ msg, (streamInit attrs).2 = .error (.elementError msg)) := by
  constructor
  · intro hT e he
    obtain ⟨v, hv, hor⟩ := streamNormalize_lookup_type attrs
    have hvL : v = "Local" := by
      rcases hor with h1 | h1
      · rw [hT] at h1; exact absurd h1 (by simp)
      · exact h1.2
    subst hvL
    rw [streamInit_snd_of_type attrs "Local" hv, if_pos (Or.inr rfl)] at he
    unfold elementInit at he
    cases hc : checkAttrKeys .Stream (streamNormalize attrs) with
    | some err => rw [hc] at he; simp at he
    | none =>
      rw [hc] at he
      simp only [Except.ok.injEq] at he
      subst he
      refine ⟨hv, fun hD => ?_⟩
      obtain ⟨w, hw, hor2⟩ := streamNormalize_lookup_delim attrs
      have hwc : w = "," := by
        rcases hor2 with h1 | h1
        · rw [hD] at h1; exact absurd h1 (by simp)
        · exact h1.2
      subst hwc
      exact hw
  · intro tv hT h1 h2
    obtain ⟨v, hv, hor⟩ := streamNormalize_lookup_type attrs
    have hvt : v = tv := by
      rcases hor with h3 | h3
      · rw [hT] at h3
        exact (Option.some.inj h3).symm
      · rw [h3.1] at hT; exact absurd hT (by simp)
    subst hvt
    rw [streamInit_snd_of_type attrs v hv,
      if_neg (by rintro (h | h) <;> [exact h1 h; exact h2 h])]
    exact ⟨_, rfl⟩

/-- Witness for C6: a Stream built from a mapping holding only a Name
carries the defaults, and a Stream with Type value Bogus fails. -/
theorem c6_witness :
    (lookupAttr (Elem.attrs (.mk .Stream
        [("Name", "n"), ("Type", "Local"), ("Delimiter", ",")] [] none))
        "Type" = some "Local" ∧
      lookupAttr (Elem.attrs (.mk .Stream
        [("Name", "n"), ("Type", "Local"), ("Delimiter", ",")] [] none))
        "Delimiter" = some ",") ∧
    ∃ msg, (streamInit [("Type", "Bogus")]).2 = .error (.elementError msg) := by
  constructor
  · have h := (c6_stream_defaults [("Name", "n")]).1 rfl
      (.mk .Stream [("Name", "n"), ("Type", "Local"), ("Delimiter", ",")] [] none)
      rfl
    exact ⟨h.1, h.2 rfl⟩
  · exact (c6_stream_defaults [("Type", "Bogus")]).2 "Bogus" rfl
      (by decide) (by decide)

/-- C7 counterexample: a Stream constructed from the mapping
Type = Bogus, all of whose keys are permitted Stream attributes, still
fails to construct, because Stream.__init__ additionally validates the
Type value. -/
theorem c7_counterexample :
    (∀ kv ∈ ([("Type", "Bogus")] : AttrMap),
        kv.1 ∈ validattributes Tag.Stream) ∧
    (construct Tag.Stream [("Type", "Bogus")]).2 =
      .error (.elementError "invalid value Bogus for Stream attribute Type") :=
  ⟨by decide, rfl⟩

/-- C7 (amended): for every tag kind other than Stream and Time,
construction from a mapping whose keys all lie in the kind's
permitted-attribute set succeeds (Stream and Time additionally validate
the Type value and can fail even on permitted keys); and for every tag
kind, construction from a mapping containing a key outside the
permitted set fails with ElementError. -/
theorem c7_construct_attr_check (t : Tag) (attrs : AttrMap) :
    (t ≠ .Stream → t ≠ .Time →
      (∀ kv ∈ attrs, kv.1 ∈ validattributes t) →
      ∃ e, (construct t attrs).2 = .ok e) ∧
    (∀ kv ∈ attrs, kv.1 ∉ validattributes t →
      ∃ msg, (construct t attrs).2 = .error (.elementError msg)) := by
  constructor
  · intro hS hT hall
    have hck : checkAttrKeys t attrs = none := checkAttrKeys_none t attrs hall
    rw [construct_snd_of_other t attrs hS hT]
    unfold elementInit
    rw [hck]
    exact ⟨_, rfl⟩
  · intro kv hmem hbad
    by_cases hS : t = .Stream
    · subst hS
      obtain ⟨v, hv, _⟩ := streamNormalize_lookup_type attrs
      show ∃ msg, (streamInit attrs).2 = .error (.elementError msg)
      rw [streamInit_snd_of_type attrs v hv]
      by_cases hval : v = "Remote" ∨ v = "Local"
      · rw [if_pos hval]
        obtain ⟨msg, hmsg⟩ := checkAttrKeys_some .Stream (streamNormalize attrs)
          kv (mem_streamNormalize attrs kv hmem) hbad
        refine ⟨msg, ?_⟩
        unfold elementInit
        rw [hmsg]
      · rw [if_neg hval]
        exact ⟨_, rfl⟩
    · by_cases hT : t = .Time
      · subst hT
        obtain ⟨v, hv, _⟩ := timeNormalize_lookup_type attrs
        show ∃ msg, (timeInit attrs).2 = .error (.elementError msg)
        rw [timeInit_snd_of_type attrs v hv]
        by_cases hval : v = "GPS" ∨ v = "Unix" ∨ v = "ISO-8601"
        · rw [if_pos hval]
          obtain ⟨msg, hmsg⟩ := checkAttrKeys_some .Time (timeNormalize attrs)
            kv (mem_timeNormalize attrs kv hmem) hbad
          refine ⟨msg, ?_⟩
          unfold elementInit
          rw [hmsg]
        · rw [if_neg hval]
          exact ⟨_, rfl⟩
      · rw [construct_snd_of_other t attrs hS hT]
        obtain ⟨msg, hmsg⟩ := checkAttrKeys_some t attrs kv hmem hbad
        refine ⟨msg, ?_⟩
        unfold elementInit
        rw [hmsg]

/-- Witness for C7: a Param built from Name = x succeeds; a Table built
from the extraneous key Foo fails with ElementError. -/
theorem c7_witness :
    (∃ e, (construct .Param [("Name", "x")]).2 = .ok e) ∧
    (∃ msg, (construct .Table [("Foo", "1")]).2 =
      .error (.elementError msg)) := by
  constructor
  · exact (c7_construct_attr_check .Param [("Name", "x")]).1
      (by decide) (by decide) (by decide)
  · exact (c7_construct_attr_check .Table [("Foo", "1")]).2
      ("Foo", "1") (by simp) (by decide)

theorem streamNormalize_of_hasKeys (a : AttrMap)
    (h1 : hasKey a "Type" = true) (h2 : hasKey a "Delimiter" = true) :
    streamNormalize a = a := by
  simp [streamNormalize, h1, h2]

theorem timeNormalize_of_hasKey (a : AttrMap)
    (h1 : hasKey a "Type" = true) : timeNormalize a = a := by
  simp [timeNormalize, h1]

theorem streamNormalize_idem (attrs : AttrMap) :
    streamNormalize (streamNormalize attrs) = streamNormalize attrs := by
  obtain ⟨v1, hv1, _⟩ := streamNormalize_lookup_type attrs
  obtain ⟨v2, hv2, _⟩ := streamNormalize_lookup_delim attrs
  exact streamNormalize_of_hasKeys _ (by simp [hasKey, hv1])
    (by simp [hasKey, hv2])

theorem timeNormalize_idem (attrs : AttrMap) :
    timeNormalize (timeNormalize attrs) = timeNormalize attrs := by
  obtain ⟨v1, hv1, _⟩ := timeNormalize_lookup_type attrs
  exact timeNormalize_of_hasKey _ (by simp [hasKey, hv1])

theorem streamNormalize_ne_of_noType (attrs : AttrMap)
    (hT : lookupAttr attrs "Type" = none) : streamNormalize attrs ≠ attrs := by
  intro heq
  obtain ⟨v, hv, _⟩ := streamNormalize_lookup_type attrs
  rw [heq, hT] at hv
  simp at hv

theorem timeNormalize_ne_of_noType (attrs : AttrMap)
    (hT : lookupAttr attrs "Type" = none) : timeNormalize attrs ≠ attrs := by
  intro heq
  obtain ⟨v, hv, _⟩ := timeNormalize_lookup_type attrs
  rw [heq, hT] at hv
  simp at hv

/-- C8: an end event for the recognized tag name Param, arriving with a
matching open Param element, fails with AttributeError, because
endElement calls the method endParam while the handler class defines
endParams.  Evaluated here on the well-nested event sequence that opens
LIGO_LW, opens a Param inside it, and closes the Param. -/
theorem c8_end_param_attribute_error :
    runEvents initHandler c8Events =
      .error (.attributeError
        "LIGOLWContentHandler instance has no attribute endParam") :=
  rfl

/-- C9: writing a Column node emits exactly one line, its self-closing
start tag carrying the attributes, whatever children or pcdata the node
holds (no end tag, no text payload, no recursion into children); the
Column end tag is the empty string. -/
theorem c9_column_self_closing (a : AttrMap) (cs : List Elem)
    (p : Option String) (indent : String) :
    writeElem (.mk .Column a cs p) indent =
      .ok (startTagStr .Column a indent ++ "\n") ∧
    startTagStr .Column a indent =
      indent ++ "<" ++ "Column" ++ formatAttrs a ++ "/>" ∧
    endTagStr .Column indent = "" := by
  refine ⟨?_, ?_, ?_⟩
  · unfold writeElem
    simp
  · simp [startTagStr, tagName]
  · simp [endTagStr]

/-- C10 counterexample: constructing a Stream (or Time) from the empty
mapping leaves the caller-supplied mapping changed - the defaults have
been written into it in place. -/
theorem c10_counterexample :
    (streamInit ([] : AttrMap)).1 ≠ ([] : AttrMap) ∧
    (timeInit ([] : AttrMap)).1 ≠ ([] : AttrMap) := by
  constructor <;> decide

/-- C10 (amended): Stream/Time construction fills the missing Type (and
for Stream also Delimiter) defaults by mutating the caller-supplied
mapping in place: after the call the caller's mapping equals the
normalized mapping, and when Type was absent it differs from the
original; a second construction from the same mapping observes the
first construction's writes, although the defaulting is idempotent so
the mapping changes no further. -/
theorem c10_inplace_defaulting (attrs : AttrMap) :
    (streamInit attrs).1 = streamNormalize attrs ∧
    (timeInit attrs).1 = timeNormalize attrs ∧
    (lookupAttr attrs "Type" = none →
      (streamInit attrs).1 ≠ attrs ∧ (timeInit attrs).1 ≠ attrs) ∧
    (streamInit (streamInit attrs).1).1 = (streamInit attrs).1 ∧
    (timeInit (timeInit attrs).1).1 = (timeInit attrs).1 := by
  refine ⟨rfl, rfl, ?_, ?_, ?_⟩
  · intro hT
    exact ⟨streamNormalize_ne_of_noType attrs hT,
      timeNormalize_ne_of_noType attrs hT⟩
  · exact streamNormalize_idem attrs
  · exact timeNormalize_idem attrs

/-- Witness for C10: applied to the mapping holding only a Name, whose
Type key is absent. -/
theorem c10_witness :
    (streamInit ([("Name", "n")] : AttrMap)).1 ≠ ([("Name", "n")] : AttrMap) ∧
    (streamInit (streamInit ([("Name", "n")] : AttrMap)).1).1 =
      (streamInit ([("Name", "n")] : AttrMap)).1 :=
  ⟨((c10_inplace_defaulting [("Name", "n")]).2.2.1 (by decide)).1,
   (c10_inplace_defaulting [("Name", "n")]).2.2.2.1⟩
